import Mathlib

/-!
Verification of the `DI::Container` dependency-injection registry
(`src/DI/Container.hpp`).

The embedding follows the source closely:

* `std::unordered_map<std::string, V>` with `find` / `operator[]` is
  embedded as an association list `MapType V` with `findMap` (lookup)
  and `assignMap` (insert-or-assign).  Only `find`, `count` and
  `operator[]=` are used by the source, and for those operations the
  association list has the same observable behaviour.
* Service instances (`std::make_shared<TImplementation>()`) are embedded
  as `Obj` values carrying a fresh allocation id and the implementation
  class name; object identity (`shared_ptr` identity in C++) is the
  allocation id.  A single allocation counter `nextId` is threaded
  through the container state: every factory invocation consumes one id,
  so the counter also counts constructor executions.
* `throw std::runtime_error(...)` is embedded as `Except.error` with one
  `DIError` constructor per throw site, carrying the type name exactly
  where the C++ message string does.  Every throw in the source happens
  before any mutation, which the definitions below mirror: the error
  branches are taken before any state is built.
* `TypedService<T>` stores its creator closure
  `[] { return std::make_shared<TImplementation>(); }`, embedded by the
  implementation class name it constructs.  `TypedServiceSingleton<T>`
  has `SetCreator` invoke the creator immediately and store the result
  in its `inst` field (`instance` in C++, renamed because `instance` is
  a Lean keyword); its `CreateService` returns the stored instance.
-/

/-- A constructed service instance: `id` is the allocation identity
(`shared_ptr` object identity), `cls` the concrete implementation class
that the factory default-constructed. -/
structure Obj where
  id : Nat
  cls : String
deriving DecidableEq, Repr

/-- Association-list embedding of `std::unordered_map<std::string, V>`. -/
abbrev MapType (V : Type) := List (String × V)

/-- `m.find(k)`: the stored value, if any. -/
def findMap {V : Type} : MapType V → String → Option V
  | [], _ => none
  | (k', v) :: rest, k => if k' = k then some v else findMap rest k

/-- `m[k] = v`: insert-or-assign. -/
def assignMap {V : Type} : MapType V → String → V → MapType V
  | [], k, v => [(k, v)]
  | (k', v') :: rest, k, v =>
      if k' = k then (k, v) :: rest else (k', v') :: assignMap rest k v

/-- Lookup in a two-level map: `find` on the outer map, then `find` on
the tag map — the composition both `Register*` (duplicate check) and
`Resolve*` perform. -/
def findNested {V : Type} (m : MapType (MapType V)) (tn tag : String) : Option V :=
  match findMap m tn with
  | none => none
  | some inner => findMap inner tag

/-- `m[tn][tag] = v`: outer `operator[]` default-constructs the inner
map when absent, then the inner map assigns. -/
def assignNested {V : Type} (m : MapType (MapType V)) (tn tag : String) (v : V) :
    MapType (MapType V) :=
  assignMap m tn (assignMap ((findMap m tn).getD []) tag v)

/-- `DI::TypedService<T>`: holds the creator closure, embedded by the
implementation class it constructs. -/
structure TypedService where
  creatorCls : String
deriving DecidableEq, Repr

/-- `TypedService::CreateService`: invoke the creator — construct a
fresh instance of the captured implementation class, consuming one
allocation id. -/
def TypedService.CreateService (s : TypedService) (nextId : Nat) : Obj × Nat :=
  (⟨nextId, s.creatorCls⟩, nextId + 1)

/-- `DI::TypedServiceSingleton<T>`: `SetCreator` runs the creator at
once and stores the result, so by the time the holder is in the registry
it carries the already-constructed instance (`inst`). -/
structure TypedServiceSingleton where
  inst : Obj
deriving DecidableEq, Repr

/-- `TypedServiceSingleton::SetCreator`: `this->instance = crt();` —
construct the instance now, consuming one allocation id. -/
def TypedServiceSingleton.SetCreator (creatorCls : String) (nextId : Nat) :
    TypedServiceSingleton × Nat :=
  (⟨⟨nextId, creatorCls⟩⟩, nextId + 1)

/-- `TypedServiceSingleton::CreateService`: return the stored instance;
no factory invocation, no allocation. -/
def TypedServiceSingleton.CreateService (s : TypedServiceSingleton) : Obj :=
  s.inst

/-- One constructor per `throw std::runtime_error(...)` site in
`Container.hpp`, carrying the type name exactly where the C++ message
does. -/
inductive DIError where
  | singletonAlreadyRegistered
  | transientAlreadyRegistered
  | scopedAlreadyRegistered
  | singletonNotFound (typeName : String)
  | transientNotFound (typeName : String)
  | serviceNotRegistered (typeName : String)
  | serviceNotFound (typeName : String)
deriving DecidableEq, Repr

/-- `DI::Container`: the three registry partitions, plus the allocation
counter `nextId` instrumenting factory invocations (not a C++ member). -/
structure Container where
  scopedServices : MapType (MapType TypedService)
  singletonServices : MapType (MapType TypedServiceSingleton)
  transientServices : MapType (MapType TypedService)
  nextId : Nat
deriving DecidableEq, Repr

/-- A default-constructed container: all partitions empty. -/
def Container.empty : Container := ⟨[], [], [], 0⟩

/-- `Container::Scope`: `std::unordered_map<std::string,
std::shared_ptr<void>> services` — keyed by the type name alone. -/
structure Scope where
  services : MapType Obj
deriving DecidableEq, Repr

/-- `Container::RegisterSingleton<TInterface, TImplementation>(tag)`:
duplicate check on `(typeName, tag)`, then `SetCreator` (which invokes
the factory immediately), then `singletonServices[typeName][tag] =
service`. -/
def Container.RegisterSingleton (c : Container) (tn tag impl : String) :
    Except DIError Container :=
  match findNested c.singletonServices tn tag with
  | some _ => .error .singletonAlreadyRegistered
  | none =>
    let (service, nid) := TypedServiceSingleton.SetCreator impl c.nextId
    .ok { c with
            singletonServices := assignNested c.singletonServices tn tag service,
            nextId := nid }

/-- `Container::RegisterTransient<TInterface, TImplementation>(tag)`:
duplicate check, then store the unevaluated creator. -/
def Container.RegisterTransient (c : Container) (tn tag impl : String) :
    Except DIError Container :=
  match findNested c.transientServices tn tag with
  | some _ => .error .transientAlreadyRegistered
  | none =>
    .ok { c with
            transientServices := assignNested c.transientServices tn tag ⟨impl⟩ }

/-- `Container::RegisterScoped<TInterface, TImplementation>(tag)`:
duplicate check, then store the unevaluated creator. -/
def Container.RegisterScoped (c : Container) (tn tag impl : String) :
    Except DIError Container :=
  match findNested c.scopedServices tn tag with
  | some _ => .error .scopedAlreadyRegistered
  | none =>
    .ok { c with
            scopedServices := assignNested c.scopedServices tn tag ⟨impl⟩ }

/-- `Container::ResolveSingleton<TInterface>(tag)`: two-level `find`,
both misses throwing `"Singleton Service not found: " + typeName`; on a
hit, return the stored instance.  The body writes no member, so the
container is unchanged. -/
def Container.ResolveSingleton (c : Container) (tn tag : String) :
    Except DIError Obj :=
  match findMap c.singletonServices tn with
  | none => .error (.singletonNotFound tn)
  | some inner =>
    match findMap inner tag with
    | none => .error (.singletonNotFound tn)
    | some val => .ok val.CreateService

/-- `Container::ResolveTransient<TInterface>(tag)`: two-level `find`,
both misses throwing `"Transient Service not found: " + typeName`; on a
hit, `CreateService` invokes the stored creator, constructing a fresh
instance.  Only the allocation counter advances. -/
def Container.ResolveTransient (c : Container) (tn tag : String) :
    Except DIError (Obj × Container) :=
  match findMap c.transientServices tn with
  | none => .error (.transientNotFound tn)
  | some inner =>
    match findMap inner tag with
    | none => .error (.transientNotFound tn)
    | some val =>
      let (obj, nid) := val.CreateService c.nextId
      .ok (obj, { c with nextId := nid })

/-- `Container::CreateScope()`: a freshly constructed, empty scope. -/
def Container.CreateScope : Scope := ⟨[]⟩

/-- `Container::ResolveScoped<TInterface>(scope, tag)`: if
`scope->services.count(typeName)` (type name alone — the tag is not part
of the scope key) the call returns an empty `weak_ptr` (`none`) and
touches nothing.  Otherwise the two-level registry `find` (outer miss:
`"Service was not registered: " + typeName`, tag miss: `"Service was not
found: " + typeName`), then the creator runs and the new instance is
stored in the scope under the type name.  Returns the weak reference
(`some obj` = valid, `none` = empty), the updated scope, and the
container (only the allocation counter can change). -/
def Container.ResolveScoped (c : Container) (scope : Scope) (tn tag : String) :
    Except DIError (Option Obj × Scope × Container) :=
  if (findMap scope.services tn).isSome then
    .ok (none, scope, c)
  else
    match findMap c.scopedServices tn with
    | none => .error (.serviceNotRegistered tn)
    | some inner =>
      match findMap inner tag with
      | none => .error (.serviceNotFound tn)
      | some val =>
        let (newService, nid) := val.CreateService c.nextId
        .ok (some newService,
             ⟨assignMap scope.services tn newService⟩,
             { c with nextId := nid })

/-!
## Operation traces

To state properties of the form "every subsequent call ...", the public
API is closed into a step relation over a world: the container plus the
scopes handed out so far (ops refer to scopes by creation index).  A
thrown exception propagates to the caller before any mutation in the
source, so a failing operation leaves the world unchanged.
-/

/-- One call against the container's public API. -/
inductive Op where
  | regSingleton (tn tag impl : String)
  | regTransient (tn tag impl : String)
  | regScoped (tn tag impl : String)
  | resSingleton (tn tag : String)
  | resTransient (tn tag : String)
  | createScope
  | resScoped (idx : Nat) (tn tag : String)
deriving DecidableEq, Repr

/-- The container together with every scope created so far. -/
structure World where
  container : Container
  scopes : List Scope
deriving DecidableEq, Repr

/-- Effect of one API call on the world.  `ResolveSingleton` writes no
member, so it leaves the world unchanged; ops naming a scope index never
handed out do nothing. -/
def step (w : World) : Op → World
  | .regSingleton tn tag impl =>
    match w.container.RegisterSingleton tn tag impl with
    | .ok c => { w with container := c }
    | .error _ => w
  | .regTransient tn tag impl =>
    match w.container.RegisterTransient tn tag impl with
    | .ok c => { w with container := c }
    | .error _ => w
  | .regScoped tn tag impl =>
    match w.container.RegisterScoped tn tag impl with
    | .ok c => { w with container := c }
    | .error _ => w
  | .resSingleton _ _ => w
  | .resTransient tn tag =>
    match w.container.ResolveTransient tn tag with
    | .ok (_, c) => { w with container := c }
    | .error _ => w
  | .createScope => { w with scopes := w.scopes ++ [Container.CreateScope] }
  | .resScoped idx tn tag =>
    match w.scopes[idx]? with
    | none => w
    | some s =>
      match w.container.ResolveScoped s tn tag with
      | .ok (_, s', c) => ⟨c, w.scopes.set idx s'⟩
      | .error _ => w

/-- Run a sequence of API calls. -/
def run (w : World) : List Op → World
  | [] => w
  | op :: ops => run (step w op) ops

/-!
## Map lemmas
-/

theorem findMap_assignMap_self {V : Type} (m : MapType V) (k : String) (v : V) :
    findMap (assignMap m k v) k = some v := by
  induction m with
  | nil => simp [assignMap, findMap]
  | cons hd tl ih =>
    obtain ⟨k', v'⟩ := hd
    by_cases h : k' = k <;> simp [assignMap, findMap, h, ih]

theorem findMap_assignMap_ne {V : Type} (m : MapType V) {k' k : String} (v : V)
    (h : k' ≠ k) : findMap (assignMap m k' v) k = findMap m k := by
  induction m with
  | nil => simp [assignMap, findMap, h]
  | cons hd tl ih =>
    obtain ⟨k₀, v₀⟩ := hd
    by_cases h0 : k₀ = k' <;> simp [assignMap, findMap, h0, ih]
    · subst h0; simp [h, findMap]

theorem findNested_assignNested_self {V : Type} (m : MapType (MapType V))
    (tn tag : String) (v : V) :
    findNested (assignNested m tn tag v) tn tag = some v := by
  unfold findNested assignNested
  rw [findMap_assignMap_self]
  exact findMap_assignMap_self _ tag v

theorem findNested_assignNested_ne {V : Type} (m : MapType (MapType V))
    {tn' tag' tn tag : String} (v : V)
    (h : tn' ≠ tn ∨ tag' ≠ tag) :
    findNested (assignNested m tn' tag' v) tn tag = findNested m tn tag := by
  unfold findNested assignNested
  by_cases htn : tn' = tn
  · subst htn
    have htag : tag' ≠ tag := h.resolve_left (by simp)
    rw [findMap_assignMap_self]
    cases hfind : findMap m tn' with
    | none => simp [hfind, findMap_assignMap_ne _ _ htag, htag, findMap]
    | some inner => simp [hfind, findMap_assignMap_ne _ _ htag, htag]
  · rw [findMap_assignMap_ne _ _ htn]

/-!
## Frame lemmas: which state each operation can touch
-/

theorem resolveTransient_frame (c : Container) (tn tag : String) (o : Obj)
    (c' : Container) (h : c.ResolveTransient tn tag = .ok (o, c')) :
    c'.scopedServices = c.scopedServices ∧
    c'.singletonServices = c.singletonServices ∧
    c'.transientServices = c.transientServices ∧
    c'.nextId = c.nextId + 1 ∧ o = ⟨c.nextId, o.cls⟩ := by
  unfold Container.ResolveTransient at h
  cases h1 : findMap c.transientServices tn with
  | none => simp [h1] at h
  | some inner =>
    cases h2 : findMap inner tag with
    | none => simp [h1, h2] at h
    | some val =>
      simp [h1, h2, TypedService.CreateService] at h
      obtain ⟨ho, hc⟩ := h
      subst hc
      simp [← ho]

theorem resolveScoped_frame (c : Container) (s : Scope) (tn tag : String)
    (r : Option Obj) (s' : Scope) (c' : Container)
    (h : c.ResolveScoped s tn tag = .ok (r, s', c')) :
    c'.scopedServices = c.scopedServices ∧
    c'.singletonServices = c.singletonServices ∧
    c'.transientServices = c.transientServices := by
  unfold Container.ResolveScoped at h
  by_cases hs : (findMap s.services tn).isSome
  · simp [hs] at h
    obtain ⟨-, -, hc⟩ := h
    subst hc
    exact ⟨rfl, rfl, rfl⟩
  · cases h1 : findMap c.scopedServices tn with
    | none => simp [hs, h1] at h
    | some inner =>
      cases h2 : findMap inner tag with
      | none => simp [hs, h1, h2] at h
      | some val =>
        simp [hs, h1, h2, TypedService.CreateService] at h
        obtain ⟨-, -, hc⟩ := h
        subst hc
        exact ⟨rfl, rfl, rfl⟩

/-- Whenever the singleton partition holds a holder for `(tn, tag)`,
`ResolveSingleton` succeeds and returns exactly the stored instance
(`CreateService` returns `inst`; no factory runs). -/
theorem resolveSingleton_of_findNested (c : Container) (tn tag : String)
    (s : TypedServiceSingleton)
    (h : findNested c.singletonServices tn tag = some s) :
    c.ResolveSingleton tn tag = .ok s.inst := by
  unfold Container.ResolveSingleton
  cases h1 : findMap c.singletonServices tn with
  | none => simp [findNested, h1] at h
  | some inner =>
    simp only [findNested, h1] at h
    simp [h, TypedServiceSingleton.CreateService]

/-- No API call ever replaces or removes a singleton holder: once the
partition maps `(tn, tag)` to `s`, it does so after any further
operation. -/
theorem step_preserves_singletonEntry (w : World) (op : Op) (tn tag : String)
    (s : TypedServiceSingleton)
    (h : findNested w.container.singletonServices tn tag = some s) :
    findNested (step w op).container.singletonServices tn tag = some s := by
  cases op with
  | regSingleton tn' tag' impl =>
    simp only [step]
    cases hdup : findNested w.container.singletonServices tn' tag' with
    | some _ => simp [Container.RegisterSingleton, hdup, h]
    | none =>
      have hne : tn' ≠ tn ∨ tag' ≠ tag := by
        by_contra hc
        push_neg at hc
        obtain ⟨h1, h2⟩ := hc
        subst h1; subst h2
        rw [hdup] at h
        exact Option.noConfusion h
      simp [Container.RegisterSingleton, hdup, TypedServiceSingleton.SetCreator,
            findNested_assignNested_ne _ _ hne, h]
  | regTransient tn' tag' impl =>
    simp only [step]
    cases hdup : findNested w.container.transientServices tn' tag' with
    | some _ => simp [Container.RegisterTransient, hdup, h]
    | none => simp [Container.RegisterTransient, hdup, h]
  | regScoped tn' tag' impl =>
    simp only [step]
    cases hdup : findNested w.container.scopedServices tn' tag' with
    | some _ => simp [Container.RegisterScoped, hdup, h]
    | none => simp [Container.RegisterScoped, hdup, h]
  | resSingleton tn' tag' => simpa [step] using h
  | resTransient tn' tag' =>
    simp only [step]
    cases hres : w.container.ResolveTransient tn' tag' with
    | error e => simpa using h
    | ok p =>
      obtain ⟨o, c'⟩ := p
      have := (resolveTransient_frame _ _ _ _ _ hres).2.1
      simpa [this] using h
  | createScope => simpa [step] using h
  | resScoped idx tn' tag' =>
    simp only [step]
    cases hidx : w.scopes[idx]? with
    | none => simpa using h
    | some sc =>
      cases hres : w.container.ResolveScoped sc tn' tag' with
      | error e => simpa [hres] using h
      | ok t =>
        obtain ⟨r, s', c'⟩ := t
        have := (resolveScoped_frame _ _ _ _ _ _ _ hres).2.1
        simpa [hres, this] using h

/-- `step_preserves_singletonEntry`, closed over a whole trace. -/
theorem run_preserves_singletonEntry (w : World) (ops : List Op)
    (tn tag : String) (s : TypedServiceSingleton)
    (h : findNested w.container.singletonServices tn tag = some s) :
    findNested (run w ops).container.singletonServices tn tag = some s := by
  induction ops generalizing w with
  | nil => simpa [run] using h
  | cons op rest ih =>
    simp only [run]
    exact ih _ (step_preserves_singletonEntry w op tn tag s h)

/-- Whenever the transient partition holds a holder for `(tn, tag)`,
`ResolveTransient` invokes the stored creator: it returns a freshly
allocated instance of the registered implementation and advances only
the allocation counter. -/
theorem resolveTransient_of_findNested (c : Container) (tn tag : String)
    (s : TypedService)
    (h : findNested c.transientServices tn tag = some s) :
    c.ResolveTransient tn tag =
      .ok (⟨c.nextId, s.creatorCls⟩, { c with nextId := c.nextId + 1 }) := by
  unfold Container.ResolveTransient
  cases h1 : findMap c.transientServices tn with
  | none => simp [findNested, h1] at h
  | some inner =>
    simp only [findNested, h1] at h
    simp [h, TypedService.CreateService]

/-- Characterisation of a `ResolveScoped` call that returned a valid
reference: the scope had no entry for the type name, the registry held a
creator for `(tn, tag)`, the returned instance is the fresh allocation,
the scope gained exactly that entry, and only the allocation counter of
the container advanced. -/
theorem resolveScoped_success (c : Container) (s : Scope) (tn tag : String)
    (o : Obj) (s' : Scope) (c' : Container)
    (h : c.ResolveScoped s tn tag = .ok (some o, s', c')) :
    findMap s.services tn = none ∧
    ∃ val : TypedService,
      findNested c.scopedServices tn tag = some val ∧
      o = ⟨c.nextId, val.creatorCls⟩ ∧
      s' = ⟨assignMap s.services tn o⟩ ∧
      c' = { c with nextId := c.nextId + 1 } := by
  unfold Container.ResolveScoped at h
  by_cases hs : (findMap s.services tn).isSome
  · simp [hs] at h
  · cases h1 : findMap c.scopedServices tn with
    | none => simp [hs, h1] at h
    | some inner =>
      cases h2 : findMap inner tag with
      | none => simp [hs, h1, h2] at h
      | some val =>
        simp [hs, h1, h2, TypedService.CreateService] at h
        obtain ⟨ho, hs', hc⟩ := h
        subst ho
        refine ⟨Option.not_isSome_iff_eq_none.mp hs, val, ?_, rfl, hs'.symm, hc.symm⟩
        simp [findNested, h1, h2]

/-- C1: a successful `RegisterSingleton` constructs the implementation
exactly once, synchronously, during registration (the allocation counter
advances by one and the stored holder carries the instance allocated at
the pre-registration counter), and after any further sequence of API
calls the holder is still in place and `ResolveSingleton` for that
`(interface, tag)` key returns exactly that stored instance — the same
object identity on every call, fixed at registration time. -/
theorem C1_singleton_eager_identity_fixed
    (c c' : Container) (tn tag impl : String)
    (h : c.RegisterSingleton tn tag impl = .ok c') :
    c'.nextId = c.nextId + 1 ∧
    ∃ s : TypedServiceSingleton,
      findNested c'.singletonServices tn tag = some s ∧
      s.inst = ⟨c.nextId, impl⟩ ∧
      ∀ scopes ops,
        findNested (run ⟨c', scopes⟩ ops).container.singletonServices tn tag
          = some s ∧
        (run ⟨c', scopes⟩ ops).container.ResolveSingleton tn tag = .ok s.inst := by
  unfold Container.RegisterSingleton at h
  cases hdup : findNested c.singletonServices tn tag with
  | some _ => simp [hdup] at h
  | none =>
    simp only [hdup, TypedServiceSingleton.SetCreator, Except.ok.injEq] at h
    subst h
    refine ⟨rfl, ⟨⟨c.nextId, impl⟩⟩, ?_, rfl, ?_⟩
    · exact findNested_assignNested_self c.singletonServices tn tag _
    · intro scopes ops
      have hent := run_preserves_singletonEntry
        ⟨{ c with
             singletonServices :=
               assignNested c.singletonServices tn tag ⟨⟨c.nextId, impl⟩⟩,
             nextId := c.nextId + 1 }, scopes⟩ ops tn tag ⟨⟨c.nextId, impl⟩⟩
        (findNested_assignNested_self c.singletonServices tn tag _)
      exact ⟨hent, resolveSingleton_of_findNested _ tn tag _ hent⟩

/-- Auxiliary container for witnesses: one singleton registration. -/
def cSingletonReg : Container := ⟨[], [("i", [("", ⟨⟨0, "m"⟩⟩)])], [], 1⟩

/-- Witness for C1 at a concrete registration on the empty container. -/
theorem C1_singleton_eager_identity_fixed_witness :
    Container.empty.RegisterSingleton "i" "" "m" = .ok cSingletonReg ∧
    (cSingletonReg.nextId = Container.empty.nextId + 1 ∧
     ∃ s : TypedServiceSingleton,
       findNested cSingletonReg.singletonServices "i" "" = some s ∧
       s.inst = ⟨Container.empty.nextId, "m"⟩ ∧
       ∀ scopes ops,
         findNested (run ⟨cSingletonReg, scopes⟩ ops).container.singletonServices
           "i" "" = some s ∧
         (run ⟨cSingletonReg, scopes⟩ ops).container.ResolveSingleton "i" ""
           = .ok s.inst) :=
  ⟨rfl, C1_singleton_eager_identity_fixed Container.empty cSingletonReg "i" "" "m" rfl⟩

/-- C2: whenever the transient partition holds a creator for
`(interface, tag)`, every `ResolveTransient` call invokes it: two
successive calls return two freshly constructed instances of the
registered implementation with distinct identities, and neither call
changes any registry partition — no transient instance is cached. -/
theorem C2_transient_fresh_distinct_uncached
    (c : Container) (tn tag : String) (s : TypedService)
    (h : findNested c.transientServices tn tag = some s) :
    ∃ o1 c1 o2 c2,
      c.ResolveTransient tn tag = .ok (o1, c1) ∧
      c1.ResolveTransient tn tag = .ok (o2, c2) ∧
      o1 = ⟨c.nextId, s.creatorCls⟩ ∧ o2 = ⟨c.nextId + 1, s.creatorCls⟩ ∧
      o1 ≠ o2 ∧
      c1.scopedServices = c.scopedServices ∧
      c1.singletonServices = c.singletonServices ∧
      c1.transientServices = c.transientServices ∧
      c2.scopedServices = c.scopedServices ∧
      c2.singletonServices = c.singletonServices ∧
      c2.transientServices = c.transientServices := by
  have h1 := resolveTransient_of_findNested c tn tag s h
  have hsame : findNested ({ c with nextId := c.nextId + 1 } :
      Container).transientServices tn tag = some s := h
  have h2 := resolveTransient_of_findNested _ tn tag s hsame
  refine ⟨_, _, _, _, h1, h2, rfl, rfl, ?_, rfl, rfl, rfl, rfl, rfl, rfl⟩
  intro he
  have := congrArg Obj.id he
  simp at this

/-- Auxiliary container for witnesses: one transient registration. -/
def cTransientReg : Container := ⟨[], [], [("i", [("", ⟨"m"⟩)])], 0⟩

/-- Witness for C2 at a concrete transient registration. -/
theorem C2_transient_fresh_distinct_uncached_witness :
    findNested cTransientReg.transientServices "i" "" = some ⟨"m"⟩ ∧
    (∃ o1 c1 o2 c2,
      cTransientReg.ResolveTransient "i" "" = .ok (o1, c1) ∧
      c1.ResolveTransient "i" "" = .ok (o2, c2) ∧
      o1 = ⟨cTransientReg.nextId, "m"⟩ ∧ o2 = ⟨cTransientReg.nextId + 1, "m"⟩ ∧
      o1 ≠ o2 ∧
      c1.scopedServices = cTransientReg.scopedServices ∧
      c1.singletonServices = cTransientReg.singletonServices ∧
      c1.transientServices = cTransientReg.transientServices ∧
      c2.scopedServices = cTransientReg.scopedServices ∧
      c2.singletonServices = cTransientReg.singletonServices ∧
      c2.transientServices = cTransientReg.transientServices) :=
  ⟨rfl, C2_transient_fresh_distinct_uncached cTransientReg "i" "" ⟨"m"⟩ rfl⟩

/-- C3: once a `ResolveScoped` call has populated the scope for a key,
repeating the call for the same key returns an empty (invalid)
non-owning reference — not a reference to the already-created
instance — and leaves the scope's existing entry and the container
untouched. -/
theorem C3_scoped_repeat_returns_empty
    (c c' : Container) (s s' : Scope) (tn tag : String) (o : Obj)
    (h : c.ResolveScoped s tn tag = .ok (some o, s', c')) :
    c'.ResolveScoped s' tn tag = .ok (none, s', c') ∧
    findMap s'.services tn = some o := by
  obtain ⟨-, val, -, -, hs', -⟩ := resolveScoped_success c s tn tag o s' c' h
  subst hs'
  have hmem : findMap (assignMap s.services tn o) tn = some o :=
    findMap_assignMap_self s.services tn o
  constructor
  · unfold Container.ResolveScoped
    simp [hmem]
  · exact hmem

/-- Auxiliary container for witnesses: one scoped registration. -/
def cScopedReg : Container := ⟨[("i", [("", ⟨"m"⟩)])], [], [], 0⟩

/-- Witness for C3: a concrete first resolution followed by the empty
repeat. -/
theorem C3_scoped_repeat_returns_empty_witness :
    cScopedReg.ResolveScoped ⟨[]⟩ "i" "" =
      .ok (some ⟨0, "m"⟩, ⟨[("i", ⟨0, "m"⟩)]⟩, ⟨[("i", [("", ⟨"m"⟩)])], [], [], 1⟩) ∧
    ((⟨[("i", [("", ⟨"m"⟩)])], [], [], 1⟩ : Container).ResolveScoped
        ⟨[("i", ⟨0, "m"⟩)]⟩ "i" "" =
      .ok (none, ⟨[("i", ⟨0, "m"⟩)]⟩, ⟨[("i", [("", ⟨"m"⟩)])], [], [], 1⟩) ∧
     findMap (⟨[("i", ⟨0, "m"⟩)]⟩ : Scope).services "i" = some ⟨0, "m"⟩) :=
  ⟨rfl, C3_scoped_repeat_returns_empty cScopedReg _ ⟨[]⟩ _ "i" "" ⟨0, "m"⟩ rfl⟩

/-- C9: whenever a scope already holds an entry under an interface's
type name, `ResolveScoped` for that interface returns an empty reference
without raising — for every tag, registered or not, because the
scope-membership check (`scope->services.count(typeName)`) precedes the
registration lookup; scope and container are untouched. -/
theorem C9_scope_membership_precedes_lookup
    (c : Container) (s : Scope) (tn tag : String) (o : Obj)
    (h : findMap s.services tn = some o) :
    c.ResolveScoped s tn tag = .ok (none, s, c) := by
  unfold Container.ResolveScoped
  simp [h]

/-- Witness for C9 at a scope already holding the type, a tag never
registered anywhere, and an empty registry. -/
theorem C9_scope_membership_precedes_lookup_witness :
    findMap (⟨[("i", ⟨7, "m"⟩)]⟩ : Scope).services "i" = some ⟨7, "m"⟩ ∧
    Container.empty.ResolveScoped ⟨[("i", ⟨7, "m"⟩)]⟩ "i" "oracle" =
      .ok (none, ⟨[("i", ⟨7, "m"⟩)]⟩, Container.empty) :=
  ⟨rfl, C9_scope_membership_precedes_lookup Container.empty
    ⟨[("i", ⟨7, "m"⟩)]⟩ "i" "oracle" ⟨7, "m"⟩ rfl⟩

/-- C10: a `RegisterSingleton` call hitting a duplicate key fails before
the holder is created, so the factory never runs: the call errors, the
world is unchanged, and in particular the allocation counter — which
counts every constructor execution — is untouched. -/
theorem C10_duplicate_singleton_no_construction
    (c : Container) (tn tag impl : String) (s : TypedServiceSingleton)
    (h : findNested c.singletonServices tn tag = some s) :
    c.RegisterSingleton tn tag impl = .error .singletonAlreadyRegistered ∧
    ∀ scopes, step ⟨c, scopes⟩ (.regSingleton tn tag impl) = ⟨c, scopes⟩ ∧
      (step ⟨c, scopes⟩ (.regSingleton tn tag impl)).container.nextId = c.nextId := by
  have herr : c.RegisterSingleton tn tag impl = .error .singletonAlreadyRegistered := by
    unfold Container.RegisterSingleton
    simp [h]
  refine ⟨herr, fun scopes => ?_⟩
  have hstep : step ⟨c, scopes⟩ (.regSingleton tn tag impl) = ⟨c, scopes⟩ := by
    simp [step, herr]
  exact ⟨hstep, by rw [hstep]⟩

/-- Witness for C10 at a concrete duplicate registration. -/
theorem C10_duplicate_singleton_no_construction_witness :
    findNested cSingletonReg.singletonServices "i" "" = some ⟨⟨0, "m"⟩⟩ ∧
    (cSingletonReg.RegisterSingleton "i" "" "m2" = .error .singletonAlreadyRegistered ∧
     ∀ scopes, step ⟨cSingletonReg, scopes⟩ (.regSingleton "i" "" "m2")
         = ⟨cSingletonReg, scopes⟩ ∧
       (step ⟨cSingletonReg, scopes⟩ (.regSingleton "i" "" "m2")).container.nextId
         = cSingletonReg.nextId) :=
  ⟨rfl, C10_duplicate_singleton_no_construction cSingletonReg "i" "" "m2" ⟨⟨0, "m"⟩⟩ rfl⟩

/-- A key absent from the singleton partition makes `ResolveSingleton`
throw `"Singleton Service not found: " + typeName` (from either of the
two lookup levels). -/
theorem resolveSingleton_not_found (c : Container) (tn tag : String)
    (h : findNested c.singletonServices tn tag = none) :
    c.ResolveSingleton tn tag = .error (.singletonNotFound tn) := by
  unfold Container.ResolveSingleton
  cases h1 : findMap c.singletonServices tn with
  | none => rfl
  | some inner =>
    simp only [findNested, h1] at h
    simp [h]

/-- A key absent from the transient partition makes `ResolveTransient`
throw `"Transient Service not found: " + typeName`. -/
theorem resolveTransient_not_found (c : Container) (tn tag : String)
    (h : findNested c.transientServices tn tag = none) :
    c.ResolveTransient tn tag = .error (.transientNotFound tn) := by
  unfold Container.ResolveTransient
  cases h1 : findMap c.transientServices tn with
  | none => rfl
  | some inner =>
    simp only [findNested, h1] at h
    simp [h]

/-- For a scope with no entry for the type, a key absent from the scoped
partition makes `ResolveScoped` throw — `"Service was not registered"`
when the type is missing, `"Service was not found"` when only the tag
is; both carry the type name. -/
theorem resolveScoped_not_found (c : Container) (sc : Scope) (tn tag : String)
    (hsc : findMap sc.services tn = none)
    (h : findNested c.scopedServices tn tag = none) :
    c.ResolveScoped sc tn tag = .error (.serviceNotRegistered tn) ∨
    c.ResolveScoped sc tn tag = .error (.serviceNotFound tn) := by
  unfold Container.ResolveScoped
  cases h1 : findMap c.scopedServices tn with
  | none => left; simp [hsc]
  | some inner =>
    simp only [findNested, h1] at h
    right; simp [hsc, h1, h]

/-- For a scope with no entry for the type, a registered `(tn, tag)` key
makes `ResolveScoped` run the stored creator, hand back a valid
reference to the fresh instance, store it in the scope under the type
name, and advance only the allocation counter. -/
theorem resolveScoped_of_findNested (c : Container) (sc : Scope)
    (tn tag : String) (s : TypedService)
    (hsc : findMap sc.services tn = none)
    (h : findNested c.scopedServices tn tag = some s) :
    c.ResolveScoped sc tn tag =
      .ok (some ⟨c.nextId, s.creatorCls⟩,
           ⟨assignMap sc.services tn ⟨c.nextId, s.creatorCls⟩⟩,
           { c with nextId := c.nextId + 1 }) := by
  unfold Container.ResolveScoped
  cases h1 : findMap c.scopedServices tn with
  | none => simp [findNested, h1] at h
  | some inner =>
    simp only [findNested, h1] at h
    simp [hsc, h, TypedService.CreateService]

/-- C5: in every lifetime partition, registering a key already present
fails with the partition's duplicate-registration error, the attempted
insert is a complete no-op on the whole world, and the first
registration remains resolvable, unchanged. -/
theorem C5_duplicate_registration_noop (c : Container) (tn tag impl : String) :
    (∀ s : TypedServiceSingleton,
      findNested c.singletonServices tn tag = some s →
      c.RegisterSingleton tn tag impl = .error .singletonAlreadyRegistered ∧
      (∀ scopes, step ⟨c, scopes⟩ (.regSingleton tn tag impl) = ⟨c, scopes⟩) ∧
      c.ResolveSingleton tn tag = .ok s.inst) ∧
    (∀ s : TypedService,
      findNested c.transientServices tn tag = some s →
      c.RegisterTransient tn tag impl = .error .transientAlreadyRegistered ∧
      (∀ scopes, step ⟨c, scopes⟩ (.regTransient tn tag impl) = ⟨c, scopes⟩) ∧
      c.ResolveTransient tn tag =
        .ok (⟨c.nextId, s.creatorCls⟩, { c with nextId := c.nextId + 1 })) ∧
    (∀ s : TypedService,
      findNested c.scopedServices tn tag = some s →
      c.RegisterScoped tn tag impl = .error .scopedAlreadyRegistered ∧
      (∀ scopes, step ⟨c, scopes⟩ (.regScoped tn tag impl) = ⟨c, scopes⟩) ∧
      ∀ sc : Scope, findMap sc.services tn = none →
        c.ResolveScoped sc tn tag =
          .ok (some ⟨c.nextId, s.creatorCls⟩,
               ⟨assignMap sc.services tn ⟨c.nextId, s.creatorCls⟩⟩,
               { c with nextId := c.nextId + 1 })) := by
  refine ⟨fun s h => ?_, fun s h => ?_, fun s h => ?_⟩
  · have herr : c.RegisterSingleton tn tag impl = .error .singletonAlreadyRegistered := by
      unfold Container.RegisterSingleton
      simp [h]
    exact ⟨herr, fun scopes => by simp [step, herr],
           resolveSingleton_of_findNested c tn tag s h⟩
  · have herr : c.RegisterTransient tn tag impl = .error .transientAlreadyRegistered := by
      unfold Container.RegisterTransient
      simp [h]
    exact ⟨herr, fun scopes => by simp [step, herr],
           resolveTransient_of_findNested c tn tag s h⟩
  · have herr : c.RegisterScoped tn tag impl = .error .scopedAlreadyRegistered := by
      unfold Container.RegisterScoped
      simp [h]
    exact ⟨herr, fun scopes => by simp [step, herr],
           fun sc hsc => resolveScoped_of_findNested c sc tn tag s hsc h⟩

/-- Auxiliary container for witnesses: the same key registered once in
each of the three partitions. -/
def cAllReg : Container :=
  ⟨[("i", [("", ⟨"m"⟩)])], [("i", [("", ⟨⟨0, "m"⟩⟩)])], [("i", [("", ⟨"m"⟩)])], 1⟩

/-- Witness for C5 at concrete duplicate registrations in all three
partitions. -/
theorem C5_duplicate_registration_noop_witness :
    (findNested cAllReg.singletonServices "i" "" = some ⟨⟨0, "m"⟩⟩ ∧
     (cAllReg.RegisterSingleton "i" "" "x" = .error .singletonAlreadyRegistered ∧
      (∀ scopes, step ⟨cAllReg, scopes⟩ (.regSingleton "i" "" "x") = ⟨cAllReg, scopes⟩) ∧
      cAllReg.ResolveSingleton "i" "" = .ok ⟨0, "m"⟩)) ∧
    (findNested cAllReg.transientServices "i" "" = some ⟨"m"⟩ ∧
     (cAllReg.RegisterTransient "i" "" "x" = .error .transientAlreadyRegistered ∧
      (∀ scopes, step ⟨cAllReg, scopes⟩ (.regTransient "i" "" "x") = ⟨cAllReg, scopes⟩) ∧
      cAllReg.ResolveTransient "i" "" =
        .ok (⟨cAllReg.nextId, "m"⟩, { cAllReg with nextId := cAllReg.nextId + 1 }))) ∧
    (findNested cAllReg.scopedServices "i" "" = some ⟨"m"⟩ ∧
     (cAllReg.RegisterScoped "i" "" "x" = .error .scopedAlreadyRegistered ∧
      (∀ scopes, step ⟨cAllReg, scopes⟩ (.regScoped "i" "" "x") = ⟨cAllReg, scopes⟩) ∧
      ∀ sc : Scope, findMap sc.services "i" = none →
        cAllReg.ResolveScoped sc "i" "" =
          .ok (some ⟨cAllReg.nextId, "m"⟩,
               ⟨assignMap sc.services "i" ⟨cAllReg.nextId, "m"⟩⟩,
               { cAllReg with nextId := cAllReg.nextId + 1 }))) :=
  ⟨⟨rfl, (C5_duplicate_registration_noop cAllReg "i" "" "x").1 ⟨⟨0, "m"⟩⟩ rfl⟩,
   ⟨rfl, (C5_duplicate_registration_noop cAllReg "i" "" "x").2.1 ⟨"m"⟩ rfl⟩,
   ⟨rfl, (C5_duplicate_registration_noop cAllReg "i" "" "x").2.2 ⟨"m"⟩ rfl⟩⟩

/-- C6 counterexample: the key `("T", "x")` is absent from every
partition (the registry is empty), yet `ResolveScoped` does not raise —
because the supplied scope already holds an entry under type `"T"`, the
call returns an empty reference, contradicting the claim that every
resolution of an unregistered key raises ServiceNotRegistered. -/
theorem C6_counterexample_scoped_no_raise :
    findNested Container.empty.scopedServices "T" "x" = none ∧
    Container.empty.ResolveScoped ⟨[("T", ⟨0, "m"⟩)]⟩ "T" "x" =
      .ok (none, ⟨[("T", ⟨0, "m"⟩)]⟩, Container.empty) :=
  ⟨rfl, rfl⟩

/-- C6 (amended): for every `(interface, tag)` key absent from the
relevant partition, `ResolveSingleton` and `ResolveTransient` raise the
partition's not-found error carrying the offending type name, and
`ResolveScoped` does so provided the supplied scope holds no entry for
the interface's type name (otherwise it returns an empty reference
without consulting the registry); every failing resolution leaves the
whole world — registry partitions and all scopes — unmodified. -/
theorem C6_amended_unregistered_resolution_fails
    (c : Container) (tn tag : String) :
    (findNested c.singletonServices tn tag = none →
      c.ResolveSingleton tn tag = .error (.singletonNotFound tn) ∧
      ∀ scopes, step ⟨c, scopes⟩ (.resSingleton tn tag) = ⟨c, scopes⟩) ∧
    (findNested c.transientServices tn tag = none →
      c.ResolveTransient tn tag = .error (.transientNotFound tn) ∧
      ∀ scopes, step ⟨c, scopes⟩ (.resTransient tn tag) = ⟨c, scopes⟩) ∧
    (∀ sc : Scope, findNested c.scopedServices tn tag = none →
      findMap sc.services tn = none →
      (c.ResolveScoped sc tn tag = .error (.serviceNotRegistered tn) ∨
       c.ResolveScoped sc tn tag = .error (.serviceNotFound tn)) ∧
      ∀ scopes idx, scopes[idx]? = some sc →
        step ⟨c, scopes⟩ (.resScoped idx tn tag) = ⟨c, scopes⟩) := by
  refine ⟨fun h => ?_, fun h => ?_, fun sc h hsc => ?_⟩
  · exact ⟨resolveSingleton_not_found c tn tag h, fun scopes => rfl⟩
  · have herr := resolveTransient_not_found c tn tag h
    exact ⟨herr, fun scopes => by simp [step, herr]⟩
  · have herr := resolveScoped_not_found c sc tn tag hsc h
    refine ⟨herr, fun scopes idx hidx => ?_⟩
    cases herr with
    | inl he => simp [step, hidx, he]
    | inr he => simp [step, hidx, he]

/-- Witness for the amended C6 at a concrete empty registry, fresh
scope, and a one-scope world. -/
theorem C6_amended_unregistered_resolution_fails_witness :
    (findNested Container.empty.singletonServices "T" "x" = none ∧
     findNested Container.empty.transientServices "T" "x" = none ∧
     findNested Container.empty.scopedServices "T" "x" = none ∧
     findMap (⟨[]⟩ : Scope).services "T" = none) ∧
    (Container.empty.ResolveSingleton "T" "x" = .error (.singletonNotFound "T") ∧
     ∀ scopes, step ⟨Container.empty, scopes⟩ (.resSingleton "T" "x")
       = ⟨Container.empty, scopes⟩) ∧
    (Container.empty.ResolveTransient "T" "x" = .error (.transientNotFound "T") ∧
     ∀ scopes, step ⟨Container.empty, scopes⟩ (.resTransient "T" "x")
       = ⟨Container.empty, scopes⟩) ∧
    ((Container.empty.ResolveScoped ⟨[]⟩ "T" "x" = .error (.serviceNotRegistered "T") ∨
      Container.empty.ResolveScoped ⟨[]⟩ "T" "x" = .error (.serviceNotFound "T")) ∧
     ∀ scopes idx, scopes[idx]? = some (⟨[]⟩ : Scope) →
       step ⟨Container.empty, scopes⟩ (.resScoped idx "T" "x")
         = ⟨Container.empty, scopes⟩) :=
  ⟨⟨rfl, rfl, rfl, rfl⟩,
   (C6_amended_unregistered_resolution_fails Container.empty "T" "x").1 rfl,
   (C6_amended_unregistered_resolution_fails Container.empty "T" "x").2.1 rfl,
   (C6_amended_unregistered_resolution_fails Container.empty "T" "x").2.2 ⟨[]⟩ rfl rfl⟩

/-- Auxiliary container: the same interface registered in the scoped
partition under two different tags with two different implementations. -/
def cTwoTags : Container :=
  ⟨[("T", [("a", ⟨"A"⟩), ("b", ⟨"B"⟩)])], [], [], 0⟩

/-- C4 counterexample: with `"T"` registered in the scoped partition
under both tag `"a"` (impl `"A"`) and tag `"b"` (impl `"B"`), and a
fresh scope, resolving tag `"a"` returns a valid reference and
populates the scope, but resolving tag `"b"` in the same scope returns
an *empty* reference and adds no entry — the two tags do not each get
their own valid, distinct instance, because the scope is keyed by the
type name alone, not by the full (type, tag) ServiceKey. -/
theorem C4_counterexample_scope_ignores_tag :
    cTwoTags.ResolveScoped ⟨[]⟩ "T" "a" =
      .ok (some ⟨0, "A"⟩, ⟨[("T", ⟨0, "A"⟩)]⟩,
           ⟨[("T", [("a", ⟨"A"⟩), ("b", ⟨"B"⟩)])], [], [], 1⟩) ∧
    (⟨[("T", [("a", ⟨"A"⟩), ("b", ⟨"B"⟩)])], [], [], 1⟩ : Container).ResolveScoped
        ⟨[("T", ⟨0, "A"⟩)]⟩ "T" "b" =
      .ok (none, ⟨[("T", ⟨0, "A"⟩)]⟩,
           ⟨[("T", [("a", ⟨"A"⟩), ("b", ⟨"B"⟩)])], [], [], 1⟩) :=
  ⟨rfl, rfl⟩

/-- C4 (amended): the scope's mapping is keyed by the interface type
name alone — the tag is not part of the scope key — so within a single
scope, the first `ResolveScoped` for an interface populates the single
per-type slot and returns a valid reference, and a subsequent
`ResolveScoped` for the same interface under any other registered tag
returns an empty reference, adds no entry, and leaves the populated
slot unchanged (a type name appears at most once per scope and is never
overwritten). -/
theorem C4_amended_scope_keyed_by_type_name
    (c : Container) (sc : Scope) (tn ta tb : String) (sa sb : TypedService)
    (hsc : findMap sc.services tn = none)
    (ha : findNested c.scopedServices tn ta = some sa)
    (_hb : findNested c.scopedServices tn tb = some sb) :
    ∃ o1 s1 c1,
      c.ResolveScoped sc tn ta = .ok (some o1, s1, c1) ∧
      findMap s1.services tn = some o1 ∧
      c1.ResolveScoped s1 tn tb = .ok (none, s1, c1) := by
  have h1 := resolveScoped_of_findNested c sc tn ta sa hsc ha
  refine ⟨⟨c.nextId, sa.creatorCls⟩, _, _, h1, ?_, ?_⟩
  · exact findMap_assignMap_self sc.services tn _
  · unfold Container.ResolveScoped
    simp [findMap_assignMap_self sc.services tn]

/-- Witness for the amended C4 at the two-tag container and a fresh
scope. -/
theorem C4_amended_scope_keyed_by_type_name_witness :
    (findMap (⟨[]⟩ : Scope).services "T" = none ∧
     findNested cTwoTags.scopedServices "T" "a" = some ⟨"A"⟩ ∧
     findNested cTwoTags.scopedServices "T" "b" = some ⟨"B"⟩) ∧
    (∃ o1 s1 c1,
      cTwoTags.ResolveScoped ⟨[]⟩ "T" "a" = .ok (some o1, s1, c1) ∧
      findMap s1.services "T" = some o1 ∧
      c1.ResolveScoped s1 "T" "b" = .ok (none, s1, c1)) :=
  ⟨⟨rfl, rfl, rfl⟩,
   C4_amended_scope_keyed_by_type_name cTwoTags ⟨[]⟩ "T" "a" "b" ⟨"A"⟩ ⟨"B"⟩
     rfl rfl rfl⟩

/-- C7: tags partition the transient namespace — with the same
interface registered under two different tags bound to two different
implementations, resolving the first tag constructs an instance of the
first implementation (and never of the other), resolving the second tag
an instance of the second, and resolving a tag registered under neither
fails with the not-found error carrying the type name. -/
theorem C7_tags_partition_namespace
    (c : Container) (tn t1 t2 t3 i1 i2 : String) (h12 : i1 ≠ i2)
    (h1 : findNested c.transientServices tn t1 = some ⟨i1⟩)
    (h2 : findNested c.transientServices tn t2 = some ⟨i2⟩)
    (h3 : findNested c.transientServices tn t3 = none) :
    (∃ o1 c1, c.ResolveTransient tn t1 = .ok (o1, c1) ∧ o1.cls = i1 ∧ o1.cls ≠ i2) ∧
    (∃ o2 c2, c.ResolveTransient tn t2 = .ok (o2, c2) ∧ o2.cls = i2 ∧ o2.cls ≠ i1) ∧
    c.ResolveTransient tn t3 = .error (.transientNotFound tn) := by
  refine ⟨⟨⟨c.nextId, i1⟩, _, resolveTransient_of_findNested c tn t1 ⟨i1⟩ h1, rfl, h12⟩,
          ⟨⟨c.nextId, i2⟩, _, resolveTransient_of_findNested c tn t2 ⟨i2⟩ h2, rfl,
           fun he => h12 he.symm⟩,
          resolveTransient_not_found c tn t3 h3⟩

/-- Auxiliary container: `IDatabase` registered transient under tags
`"MySQL"` and `"PostgreSQL"`. -/
def cDatabases : Container :=
  ⟨[], [], [("IDatabase", [("MySQL", ⟨"MySQLDatabase"⟩),
                           ("PostgreSQL", ⟨"PostgreSQLDatabase"⟩)])], 0⟩

/-- Witness for C7 at the two-database container with the unregistered
tag `"Oracle"`. -/
theorem C7_tags_partition_namespace_witness :
    ("MySQLDatabase" ≠ "PostgreSQLDatabase" ∧
     findNested cDatabases.transientServices "IDatabase" "MySQL"
       = some ⟨"MySQLDatabase"⟩ ∧
     findNested cDatabases.transientServices "IDatabase" "PostgreSQL"
       = some ⟨"PostgreSQLDatabase"⟩ ∧
     findNested cDatabases.transientServices "IDatabase" "Oracle" = none) ∧
    ((∃ o1 c1, cDatabases.ResolveTransient "IDatabase" "MySQL" = .ok (o1, c1) ∧
       o1.cls = "MySQLDatabase" ∧ o1.cls ≠ "PostgreSQLDatabase") ∧
     (∃ o2 c2, cDatabases.ResolveTransient "IDatabase" "PostgreSQL" = .ok (o2, c2) ∧
       o2.cls = "PostgreSQLDatabase" ∧ o2.cls ≠ "MySQLDatabase") ∧
     cDatabases.ResolveTransient "IDatabase" "Oracle"
       = .error (.transientNotFound "IDatabase")) :=
  ⟨⟨by decide, rfl, rfl, rfl⟩,
   C7_tags_partition_namespace cDatabases "IDatabase" "MySQL" "PostgreSQL" "Oracle"
     "MySQLDatabase" "PostgreSQLDatabase" (by decide) rfl rfl rfl⟩

/-- C8: `CreateScope` always returns a scope with no entries, and
distinct scopes are independent: resolving the same registered scoped
key in two scopes each created by `CreateScope` constructs two distinct
instances, and each scope's slot holds its own instance — an instance
created in one scope is never handed out through the other. -/
theorem C8_scopes_independent
    (c : Container) (tn tag : String) (s : TypedService)
    (h : findNested c.scopedServices tn tag = some s) :
    Container.CreateScope.services = [] ∧
    ∃ o1 s1 c1 o2 s2 c2,
      c.ResolveScoped Container.CreateScope tn tag = .ok (some o1, s1, c1) ∧
      c1.ResolveScoped Container.CreateScope tn tag = .ok (some o2, s2, c2) ∧
      o1 ≠ o2 ∧
      findMap s1.services tn = some o1 ∧
      findMap s2.services tn = some o2 ∧
      findMap s2.services tn ≠ some o1 := by
  have hempty : findMap (Container.CreateScope).services tn = none := rfl
  have h1 := resolveScoped_of_findNested c Container.CreateScope tn tag s hempty h
  have h' : findNested ({ c with nextId := c.nextId + 1 } :
      Container).scopedServices tn tag = some s := h
  have h2 := resolveScoped_of_findNested { c with nextId := c.nextId + 1 }
    Container.CreateScope tn tag s hempty h'
  have hne : (⟨c.nextId, s.creatorCls⟩ : Obj) ≠ ⟨c.nextId + 1, s.creatorCls⟩ := by
    intro he
    have := congrArg Obj.id he
    simp at this
  refine ⟨rfl, _, _, _, _, _, _, h1, h2, hne, ?_, ?_, ?_⟩
  · exact findMap_assignMap_self _ tn _
  · exact findMap_assignMap_self _ tn _
  · rw [findMap_assignMap_self _ tn _]
    intro he
    exact hne ((Option.some.injEq _ _).mp he).symm

/-- Witness for C8 at the concrete scoped registration. -/
theorem C8_scopes_independent_witness :
    findNested cScopedReg.scopedServices "i" "" = some ⟨"m"⟩ ∧
    (Container.CreateScope.services = [] ∧
     ∃ o1 s1 c1 o2 s2 c2,
       cScopedReg.ResolveScoped Container.CreateScope "i" "" = .ok (some o1, s1, c1) ∧
       c1.ResolveScoped Container.CreateScope "i" "" = .ok (some o2, s2, c2) ∧
       o1 ≠ o2 ∧
       findMap s1.services "i" = some o1 ∧
       findMap s2.services "i" = some o2 ∧
       findMap s2.services "i" ≠ some o1) :=
  ⟨rfl, C8_scopes_independent cScopedReg "i" "" ⟨"m"⟩ rfl⟩
